import Mathlib

/-!
Shallow embedding of `src/windows/runner/flutter_window.cpp` (the Windows
platform shim of the `rune` application) together with proofs of the
specification's testable properties.

External collaborators (the Flutter engine controller, the Win32 base window
class and `DefWindowProc`) are modelled as an explicit environment of pure
functions; the shim's own state (`maximum_button_hover_`,
`flutter_controller_`) is passed explicitly.  Window messages and `LRESULT`
values are integers, as in the Win32 headers.
-/

namespace Rune

/-- `WM_FONTCHANGE` message identifier (0x001D). -/
def WM_FONTCHANGE : Nat := 29

/-- `WM_NCCALCSIZE` message identifier (0x0083). -/
def WM_NCCALCSIZE : Nat := 131

/-- `WM_NCHITTEST` message identifier (0x0084). -/
def WM_NCHITTEST : Nat := 132

/-- `HTMAXBUTTON` hit-test result (9). -/
def HTMAXBUTTON : Int := 9

/-- Win32 `RECT`: left/top/right/bottom coordinates in device units. -/
structure RECT where
  left : Int
  top : Int
  right : Int
  bottom : Int
deriving DecidableEq, Repr

/-- The part of `NCCALCSIZE_PARAMS` touched by the code: the array `rgrc` of
three rectangles (the code only writes `rgrc[0].top`). -/
structure NCCALCSIZE_PARAMS where
  rgrc0 : RECT
  rgrc1 : RECT
  rgrc2 : RECT
deriving DecidableEq, Repr

/-- Window-shell state: the hover flag `maximum_button_hover_` and whether the
owned `flutter_controller_` pointer is non-null. -/
structure FlutterWindowState where
  maximum_button_hover_ : Bool
  flutter_controller_ : Bool
deriving DecidableEq, Repr

/-- The `FlutterWindow` constructor: `maximum_button_hover_(false)`, and the
`std::unique_ptr` member `flutter_controller_` default-initializes to null. -/
def initFlutterWindow : FlutterWindowState :=
  { maximum_button_hover_ := false, flutter_controller_ := false }

/-- Environment of external collaborators used by `MessageHandler`, as pure
functions of the message and its parameters.  `DefWindowProc` on
`WM_NCCALCSIZE` also rewrites the rectangle array behind `lParam`, so it
returns an updated `NCCALCSIZE_PARAMS` along with its `LRESULT`. -/
structure Env where
  handleTopLevelWindowProc : Nat → Int → Int → Option Int
  defWindowProc : Nat → Int → Int → NCCALCSIZE_PARAMS → Int × NCCALCSIZE_PARAMS
  win32MessageHandler : Nat → Int → Int → Int

/-- Outcome of one `MessageHandler` invocation: a returned `LRESULT`, or a
null-pointer dereference of `flutter_controller_` (undefined behavior in the
C++ source). -/
inductive MHOutcome where
  | ok (result : Int)
  | nullDeref
deriving DecidableEq, Repr

/-- Observable result of one `MessageHandler` invocation: the outcome, the
final contents of the `NCCALCSIZE_PARAMS` behind `lParam`, and which external
effects ran. -/
structure MHResult where
  outcome : MHOutcome
  pncc : NCCALCSIZE_PARAMS
  reloadedSystemFonts : Bool
  calledDefWindowProc : Bool
  calledWin32Handler : Bool
deriving DecidableEq, Repr

/-- The `switch (message)` statement of `FlutterWindow::MessageHandler`,
reached when the engine did not handle the message.  `WM_FONTCHANGE`
dereferences `flutter_controller_` unconditionally; `WM_NCCALCSIZE` runs
default processing, then forces `rgrc[0].top = 56` and returns the default
result; `WM_NCHITTEST` returns `HTMAXBUTTON` when the hover flag is set;
everything else falls through to `Win32Window::MessageHandler`. -/
def messageSwitch (env : Env) (st : FlutterWindowState) (message : Nat)
    (wparam lparam : Int) (pncc : NCCALCSIZE_PARAMS) : MHResult :=
  if message = WM_FONTCHANGE then
    if st.flutter_controller_ then
      { outcome := MHOutcome.ok (env.win32MessageHandler message wparam lparam),
        pncc := pncc, reloadedSystemFonts := true,
        calledDefWindowProc := false, calledWin32Handler := true }
    else
      { outcome := MHOutcome.nullDeref, pncc := pncc,
        reloadedSystemFonts := false, calledDefWindowProc := false,
        calledWin32Handler := false }
  else if message = WM_NCCALCSIZE then
    let dwp := env.defWindowProc message wparam lparam pncc
    { outcome := MHOutcome.ok dwp.1,
      pncc := { dwp.2 with rgrc0 := { dwp.2.rgrc0 with top := 56 } },
      reloadedSystemFonts := false, calledDefWindowProc := true,
      calledWin32Handler := false }
  else if message = WM_NCHITTEST then
    if st.maximum_button_hover_ then
      { outcome := MHOutcome.ok HTMAXBUTTON, pncc := pncc,
        reloadedSystemFonts := false, calledDefWindowProc := false,
        calledWin32Handler := false }
    else
      { outcome := MHOutcome.ok (env.win32MessageHandler message wparam lparam),
        pncc := pncc, reloadedSystemFonts := false,
        calledDefWindowProc := false, calledWin32Handler := true }
  else
    { outcome := MHOutcome.ok (env.win32MessageHandler message wparam lparam),
      pncc := pncc, reloadedSystemFonts := false,
      calledDefWindowProc := false, calledWin32Handler := true }

/-- `FlutterWindow::MessageHandler`: when `flutter_controller_` is non-null,
the message is first offered to `HandleTopLevelWindowProc`; a `some` result is
returned immediately, otherwise the switch runs.  When the controller is
null the guard skips only the forwarding hook, not the switch. -/
def MessageHandler (env : Env) (st : FlutterWindowState) (message : Nat)
    (wparam lparam : Int) (pncc : NCCALCSIZE_PARAMS) : MHResult :=
  if st.flutter_controller_ then
    match env.handleTopLevelWindowProc message wparam lparam with
    | some result =>
      { outcome := MHOutcome.ok result, pncc := pncc,
        reloadedSystemFonts := false, calledDefWindowProc := false,
        calledWin32Handler := false }
    | none => messageSwitch env st message wparam lparam pncc
  else
    messageSwitch env st message wparam lparam pncc

/-- Response sent through a `MethodResult`: `Success()` or
`NotImplemented()`. -/
inductive ChannelResponse where
  | success
  | notImplemented
deriving DecidableEq, Repr

/-- The `SetMethodCallHandler` lambda installed on channel `ci.not.rune/snap`:
given the current hover flag and the requested method name, it yields the new
hover flag and the response sent back. -/
def methodCallHandler (hover : Bool) (methodName : String) :
    Bool × ChannelResponse :=
  if methodName = "maximumButtonEnter" then
    (true, ChannelResponse.success)
  else if methodName = "maximumButtonExit" then
    (false, ChannelResponse.success)
  else
    (hover, ChannelResponse.notImplemented)

/-- Environment for `OnCreate`: whether `Win32Window::OnCreate` succeeds, the
client area it reports, and whether the constructed controller's `engine()`
and `view()` come back non-null. -/
structure CreateEnv where
  win32OnCreateOk : Bool
  clientArea : RECT
  engineOk : Bool
  viewOk : Bool
deriving DecidableEq, Repr

/-- Observable result of `FlutterWindow::OnCreate`: the returned boolean and
which steps executed. -/
structure CreateResult where
  ok : Bool
  controllerConstructed : Bool
  controllerWidth : Int
  controllerHeight : Int
  pluginsRegistered : Bool
  channelHandlerSet : Bool
  childContentSet : Bool
  forcedRedraw : Bool
deriving DecidableEq, Repr

/-- `FlutterWindow::OnCreate`: bail out if base creation fails; construct the
controller with the client-area dimensions; bail out if engine or view is
null; then register plugins, install the channel handler, attach the child
content, register the first-frame callback and force a redraw. -/
def OnCreate (env : CreateEnv) : CreateResult :=
  if !env.win32OnCreateOk then
    { ok := false, controllerConstructed := false, controllerWidth := 0,
      controllerHeight := 0, pluginsRegistered := false,
      channelHandlerSet := false, childContentSet := false,
      forcedRedraw := false }
  else
    let frame := env.clientArea
    let width := frame.right - frame.left
    let height := frame.bottom - frame.top
    if !env.engineOk || !env.viewOk then
      { ok := false, controllerConstructed := true, controllerWidth := width,
        controllerHeight := height, pluginsRegistered := false,
        channelHandlerSet := false, childContentSet := false,
        forcedRedraw := false }
    else
      { ok := true, controllerConstructed := true, controllerWidth := width,
        controllerHeight := height, pluginsRegistered := true,
        channelHandlerSet := true, childContentSet := true,
        forcedRedraw := true }

/-- Actions observable during `OnDestroy`. -/
inductive DestroyAction where
  | releaseController
  | win32OnDestroy
deriving DecidableEq, Repr

/-- `FlutterWindow::OnDestroy`: if `flutter_controller_` is non-null it is
released (set to null); then `Win32Window::OnDestroy()` runs unconditionally.
Returns the new controller flag and the trace of actions in order. -/
def OnDestroy (controller : Bool) : Bool × List DestroyAction :=
  let released :=
    if controller then
      (false, [DestroyAction.releaseController])
    else
      (controller, ([] : List DestroyAction))
  (released.1, released.2 ++ [DestroyAction.win32OnDestroy])

/-- Sample environment whose forwarding hook never handles a message; used to
instantiate universally quantified theorems at a concrete input. -/
def sampleEnv : Env :=
  { handleTopLevelWindowProc := fun _ _ _ => none,
    defWindowProc := fun _ _ _ p => (7, p),
    win32MessageHandler := fun _ _ _ => 3 }

/-- Sample environment whose forwarding hook handles every message with
result 42. -/
def sampleEnvHandled : Env :=
  { handleTopLevelWindowProc := fun _ _ _ => some 42,
    defWindowProc := fun _ _ _ p => (7, p),
    win32MessageHandler := fun _ _ _ => 3 }

/-- Sample rectangle. -/
def sampleRect : RECT := { left := 10, top := 20, right := 800, bottom := 600 }

/-- Sample `NCCALCSIZE_PARAMS` contents. -/
def samplePncc : NCCALCSIZE_PARAMS :=
  { rgrc0 := sampleRect, rgrc1 := sampleRect, rgrc2 := sampleRect }

/-- Sample shell state with a live controller and the hover flag set. -/
def sampleStateHover : FlutterWindowState :=
  { maximum_button_hover_ := true, flutter_controller_ := true }

/-- Sample shell state with a live controller and the hover flag clear. -/
def sampleStateNoHover : FlutterWindowState :=
  { maximum_button_hover_ := false, flutter_controller_ := true }

/-- Sample create environment where base native window creation fails. -/
def createEnvNoWin32 : CreateEnv :=
  { win32OnCreateOk := false, clientArea := sampleRect, engineOk := true,
    viewOk := true }

/-- Sample create environment where the controller's engine is null. -/
def createEnvEngineBad : CreateEnv :=
  { win32OnCreateOk := true, clientArea := sampleRect, engineOk := false,
    viewOk := true }

end Rune

namespace Rune

/-- Claim C1: for every `WM_NCCALCSIZE` message not handled by the Engine
Controller, after default processing computes the base result, the top of
`rgrc[0]` in the resulting params is exactly 56, regardless of the window's
current size or position (i.e. of the incoming rectangle contents), and the
default-processing result value is returned. -/
theorem nccalcsize_top_fixed (env : Env) (st : FlutterWindowState)
    (wparam lparam : Int) (pncc : NCCALCSIZE_PARAMS)
    (h : st.flutter_controller_ = false ∨
      env.handleTopLevelWindowProc WM_NCCALCSIZE wparam lparam = none) :
    (MessageHandler env st WM_NCCALCSIZE wparam lparam pncc).pncc.rgrc0.top = 56 ∧
    (MessageHandler env st WM_NCCALCSIZE wparam lparam pncc).outcome =
      MHOutcome.ok (env.defWindowProc WM_NCCALCSIZE wparam lparam pncc).1 ∧
    (MessageHandler env st WM_NCCALCSIZE wparam lparam pncc).calledDefWindowProc = true := by
  cases hc : st.flutter_controller_ with
  | false =>
      simp [MessageHandler, messageSwitch, hc, WM_NCCALCSIZE, WM_FONTCHANGE]
  | true =>
      have hn : env.handleTopLevelWindowProc WM_NCCALCSIZE wparam lparam = none := by
        rcases h with h | h
        · rw [hc] at h; exact absurd h (by simp)
        · exact h
      unfold MessageHandler
      rw [hc, hn]
      simp [messageSwitch, WM_NCCALCSIZE, WM_FONTCHANGE]

/-- Witness for C1 at a concrete environment, state and rectangle. -/
theorem nccalcsize_top_fixed_witness :
    (MessageHandler sampleEnv sampleStateNoHover WM_NCCALCSIZE 0 0 samplePncc).pncc.rgrc0.top = 56 ∧
    (MessageHandler sampleEnv sampleStateNoHover WM_NCCALCSIZE 0 0 samplePncc).outcome =
      MHOutcome.ok (sampleEnv.defWindowProc WM_NCCALCSIZE 0 0 samplePncc).1 ∧
    (MessageHandler sampleEnv sampleStateNoHover WM_NCCALCSIZE 0 0 samplePncc).calledDefWindowProc = true :=
  nccalcsize_top_fixed sampleEnv sampleStateNoHover 0 0 samplePncc (Or.inr rfl)

/-- Claim C2: when the Engine Controller's forwarding hook handles a message,
`MessageHandler` returns that exact result unchanged, the rectangle params are
untouched, and none of the special-case effects (font reload, `DefWindowProc`
override, default handling) execute. -/
theorem engine_handled_result_returned (env : Env) (st : FlutterWindowState)
    (message : Nat) (wparam lparam : Int) (pncc : NCCALCSIZE_PARAMS) (r : Int)
    (hc : st.flutter_controller_ = true)
    (h : env.handleTopLevelWindowProc message wparam lparam = some r) :
    MessageHandler env st message wparam lparam pncc =
      { outcome := MHOutcome.ok r, pncc := pncc, reloadedSystemFonts := false,
        calledDefWindowProc := false, calledWin32Handler := false } := by
  simp [MessageHandler, hc, h]

/-- Witness for C2 at a concrete environment where the hook returns 42. -/
theorem engine_handled_result_returned_witness :
    MessageHandler sampleEnvHandled sampleStateNoHover WM_NCHITTEST 0 0 samplePncc =
      { outcome := MHOutcome.ok 42, pncc := samplePncc,
        reloadedSystemFonts := false, calledDefWindowProc := false,
        calledWin32Handler := false } :=
  engine_handled_result_returned sampleEnvHandled sampleStateNoHover
    WM_NCHITTEST 0 0 samplePncc 42 rfl rfl

/-- Claim C3: for every `WM_NCHITTEST` message not handled by the Engine
Controller, if the hover flag is set, `MessageHandler` returns `HTMAXBUTTON`
regardless of the cursor coordinates in `wParam`/`lParam`. -/
theorem nchittest_hover_reports_maxbutton (env : Env)
    (st : FlutterWindowState) (wparam lparam : Int) (pncc : NCCALCSIZE_PARAMS)
    (hh : st.maximum_button_hover_ = true)
    (h : st.flutter_controller_ = false ∨
      env.handleTopLevelWindowProc WM_NCHITTEST wparam lparam = none) :
    (MessageHandler env st WM_NCHITTEST wparam lparam pncc).outcome =
      MHOutcome.ok HTMAXBUTTON := by
  cases hc : st.flutter_controller_ with
  | false =>
      simp [MessageHandler, messageSwitch, hc, hh, WM_NCHITTEST, WM_FONTCHANGE,
        WM_NCCALCSIZE]
  | true =>
      have hn : env.handleTopLevelWindowProc WM_NCHITTEST wparam lparam = none := by
        rcases h with h | h
        · rw [hc] at h; exact absurd h (by simp)
        · exact h
      unfold MessageHandler
      rw [hc, hn]
      simp [messageSwitch, hh, WM_NCHITTEST, WM_FONTCHANGE, WM_NCCALCSIZE]

/-- Witness for C3 at a concrete environment, hover state and coordinates. -/
theorem nchittest_hover_reports_maxbutton_witness :
    (MessageHandler sampleEnv sampleStateHover WM_NCHITTEST 0 123456 samplePncc).outcome =
      MHOutcome.ok HTMAXBUTTON :=
  nchittest_hover_reports_maxbutton sampleEnv sampleStateHover 0 123456
    samplePncc rfl (Or.inr rfl)

/-- Claim C4: `maximumButtonEnter` sets the hover flag true and succeeds;
`maximumButtonExit` sets it false and succeeds; both from any starting state,
and repeating either call leaves the flag at its target value. -/
theorem channel_enter_exit_idempotent (hover : Bool) :
    methodCallHandler hover "maximumButtonEnter" = (true, ChannelResponse.success) ∧
    methodCallHandler hover "maximumButtonExit" = (false, ChannelResponse.success) ∧
    methodCallHandler (methodCallHandler hover "maximumButtonEnter").1
      "maximumButtonEnter" = (true, ChannelResponse.success) ∧
    methodCallHandler (methodCallHandler hover "maximumButtonExit").1
      "maximumButtonExit" = (false, ChannelResponse.success) := by
  cases hover <;> decide

/-- Claim C5: every Control Channel method name other than the two recognized
ones yields a not-implemented response and leaves the hover flag unchanged. -/
theorem channel_unknown_not_implemented (hover : Bool) (name : String)
    (h1 : name ≠ "maximumButtonEnter") (h2 : name ≠ "maximumButtonExit") :
    methodCallHandler hover name = (hover, ChannelResponse.notImplemented) := by
  simp [methodCallHandler, h1, h2]

/-- Witness for C5 at a concrete unrecognized method name. -/
theorem channel_unknown_not_implemented_witness :
    methodCallHandler true "getPlatformVersion" =
      (true, ChannelResponse.notImplemented) :=
  channel_unknown_not_implemented true "getPlatformVersion" (by decide) (by decide)

/-- Claim C6: for every `WM_FONTCHANGE` message not handled by the Engine
Controller (with a live controller), the engine's system fonts are reloaded
and the handler still falls through to default window-message handling. -/
theorem fontchange_reloads_and_falls_through (env : Env)
    (st : FlutterWindowState) (wparam lparam : Int) (pncc : NCCALCSIZE_PARAMS)
    (hc : st.flutter_controller_ = true)
    (h : env.handleTopLevelWindowProc WM_FONTCHANGE wparam lparam = none) :
    MessageHandler env st WM_FONTCHANGE wparam lparam pncc =
      { outcome := MHOutcome.ok (env.win32MessageHandler WM_FONTCHANGE wparam lparam),
        pncc := pncc, reloadedSystemFonts := true, calledDefWindowProc := false,
        calledWin32Handler := true } := by
  simp [MessageHandler, messageSwitch, hc, h]

/-- Witness for C6 at a concrete environment and state. -/
theorem fontchange_reloads_and_falls_through_witness :
    MessageHandler sampleEnv sampleStateNoHover WM_FONTCHANGE 0 0 samplePncc =
      { outcome := MHOutcome.ok (sampleEnv.win32MessageHandler WM_FONTCHANGE 0 0),
        pncc := samplePncc, reloadedSystemFonts := true,
        calledDefWindowProc := false, calledWin32Handler := true } :=
  fontchange_reloads_and_falls_through sampleEnv sampleStateNoHover 0 0
    samplePncc rfl rfl

/-- Claim C7: if base native window creation fails, `OnCreate` returns failure
and no Engine Controller is constructed; if the constructed controller's
engine or view failed to initialize, `OnCreate` also returns failure. -/
theorem oncreate_failure_paths (env : CreateEnv) :
    (env.win32OnCreateOk = false →
      (OnCreate env).ok = false ∧ (OnCreate env).controllerConstructed = false) ∧
    (env.win32OnCreateOk = true →
      (env.engineOk = false ∨ env.viewOk = false) →
      (OnCreate env).ok = false ∧ (OnCreate env).controllerConstructed = true) := by
  obtain ⟨w, area, e, v⟩ := env
  cases w <;> cases e <;> cases v <;> simp [OnCreate]

/-- Witness for C7 at concrete environments exercising both failure paths. -/
theorem oncreate_failure_paths_witness :
    ((OnCreate createEnvNoWin32).ok = false ∧
      (OnCreate createEnvNoWin32).controllerConstructed = false) ∧
    ((OnCreate createEnvEngineBad).ok = false ∧
      (OnCreate createEnvEngineBad).controllerConstructed = true) :=
  ⟨(oncreate_failure_paths createEnvNoWin32).1 rfl,
    (oncreate_failure_paths createEnvEngineBad).2 rfl (Or.inl rfl)⟩

/-- Claim C8: `OnDestroy` leaves the controller reference null and always runs
base destruction; with a live controller the release happens before base
destruction, and with an already-null reference the release is a no-op while
base destruction still runs. -/
theorem ondestroy_release_then_base (controller : Bool) :
    (OnDestroy controller).1 = false ∧
    (controller = true → (OnDestroy controller).2 =
      [DestroyAction.releaseController, DestroyAction.win32OnDestroy]) ∧
    (controller = false → (OnDestroy controller).2 =
      [DestroyAction.win32OnDestroy]) := by
  cases controller <;> simp [OnDestroy]

/-- Witness for C8 at both concrete starting states. -/
theorem ondestroy_release_then_base_witness :
    ((OnDestroy true).1 = false ∧ (OnDestroy true).2 =
      [DestroyAction.releaseController, DestroyAction.win32OnDestroy]) ∧
    ((OnDestroy false).1 = false ∧ (OnDestroy false).2 =
      [DestroyAction.win32OnDestroy]) :=
  ⟨⟨(ondestroy_release_then_base true).1,
      (ondestroy_release_then_base true).2.1 rfl⟩,
    ⟨(ondestroy_release_then_base false).1,
      (ondestroy_release_then_base false).2.2 rfl⟩⟩

/-- Helper: with a live controller no branch of the message switch hits the
null dereference. -/
theorem messageSwitch_live_no_nullDeref (env : Env) (st : FlutterWindowState)
    (message : Nat) (wparam lparam : Int) (pncc : NCCALCSIZE_PARAMS)
    (hc : st.flutter_controller_ = true) :
    (messageSwitch env st message wparam lparam pncc).outcome ≠
      MHOutcome.nullDeref := by
  unfold messageSwitch
  rw [hc]
  split_ifs <;> simp_all

/-- Claim C9: the `WM_FONTCHANGE` branch dereferences the controller without a
null check: with a non-null controller no invocation of `MessageHandler` can
hit the null dereference, while with a null controller an unhandled
`WM_FONTCHANGE` does hit it (the initial guard skips only the forwarding
hook, not the switch). -/
theorem fontchange_null_deref_guard (env : Env) :
    (∀ (st : FlutterWindowState) (message : Nat) (wparam lparam : Int)
      (pncc : NCCALCSIZE_PARAMS), st.flutter_controller_ = true →
      (MessageHandler env st message wparam lparam pncc).outcome ≠
        MHOutcome.nullDeref) ∧
    (∀ (st : FlutterWindowState) (wparam lparam : Int)
      (pncc : NCCALCSIZE_PARAMS), st.flutter_controller_ = false →
      (MessageHandler env st WM_FONTCHANGE wparam lparam pncc).outcome =
        MHOutcome.nullDeref) := by
  constructor
  · intro st message wparam lparam pncc hc
    cases hh : env.handleTopLevelWindowProc message wparam lparam with
    | some r => simp [MessageHandler, hc, hh]
    | none =>
        simpa [MessageHandler, hc, hh] using
          messageSwitch_live_no_nullDeref env st message wparam lparam pncc hc
  · intro st wparam lparam pncc hc
    simp [MessageHandler, messageSwitch, hc]

/-- Witness for C9 at a concrete environment and concrete states. -/
theorem fontchange_null_deref_guard_witness :
    (MessageHandler sampleEnv sampleStateNoHover WM_FONTCHANGE 0 0 samplePncc).outcome ≠
      MHOutcome.nullDeref ∧
    (MessageHandler sampleEnv initFlutterWindow WM_FONTCHANGE 0 0 samplePncc).outcome =
      MHOutcome.nullDeref :=
  ⟨(fontchange_null_deref_guard sampleEnv).1 sampleStateNoHover WM_FONTCHANGE
      0 0 samplePncc rfl,
    (fontchange_null_deref_guard sampleEnv).2 initFlutterWindow 0 0
      samplePncc rfl⟩

/-- Claim C10: the hover flag is initialized to false at construction; only
the method name `maximumButtonEnter` can raise it; and while it is false,
every `WM_NCHITTEST` not handled by the Engine Controller falls through to
default handling rather than reporting the maximize button. -/
theorem initial_hover_false_default_hittest :
    initFlutterWindow.maximum_button_hover_ = false ∧
    (∀ (hover : Bool) (name : String), name ≠ "maximumButtonEnter" →
      (methodCallHandler hover name).1 = true → hover = true) ∧
    (∀ (env : Env) (st : FlutterWindowState) (wparam lparam : Int)
      (pncc : NCCALCSIZE_PARAMS), st.maximum_button_hover_ = false →
      (st.flutter_controller_ = false ∨
        env.handleTopLevelWindowProc WM_NCHITTEST wparam lparam = none) →
      (MessageHandler env st WM_NCHITTEST wparam lparam pncc).outcome =
        MHOutcome.ok (env.win32MessageHandler WM_NCHITTEST wparam lparam) ∧
      (MessageHandler env st WM_NCHITTEST wparam lparam pncc).calledWin32Handler = true) := by
  refine ⟨rfl, ?_, ?_⟩
  · intro hover name h1 h2
    by_cases hx : name = "maximumButtonExit"
    · unfold methodCallHandler at h2
      rw [if_neg h1, if_pos hx] at h2
      exact absurd h2 (by simp)
    · unfold methodCallHandler at h2
      rw [if_neg h1, if_neg hx] at h2
      exact h2
  · intro env st wparam lparam pncc hh h
    cases hc : st.flutter_controller_ with
    | false =>
        simp [MessageHandler, messageSwitch, hc, hh, WM_NCHITTEST,
          WM_FONTCHANGE, WM_NCCALCSIZE]
    | true =>
        have hn : env.handleTopLevelWindowProc WM_NCHITTEST wparam lparam = none := by
          rcases h with h | h
          · rw [hc] at h; exact absurd h (by simp)
          · exact h
        unfold MessageHandler
        rw [hc, hn]
        simp [messageSwitch, hh, WM_NCHITTEST, WM_FONTCHANGE, WM_NCCALCSIZE]

/-- Witness for C10 at a concrete unrecognized name and a concrete
hit-test invocation from the freshly constructed state with a controller. -/
theorem initial_hover_false_default_hittest_witness :
    initFlutterWindow.maximum_button_hover_ = false ∧
    (true = true) ∧
    ((MessageHandler sampleEnv sampleStateNoHover WM_NCHITTEST 5 6 samplePncc).outcome =
      MHOutcome.ok (sampleEnv.win32MessageHandler WM_NCHITTEST 5 6) ∧
      (MessageHandler sampleEnv sampleStateNoHover WM_NCHITTEST 5 6 samplePncc).calledWin32Handler = true) :=
  ⟨initial_hover_false_default_hittest.1,
    initial_hover_false_default_hittest.2.1 true "getPlatformVersion"
      (by decide) (by decide),
    initial_hover_false_default_hittest.2.2 sampleEnv sampleStateNoHover 5 6
      samplePncc rfl (Or.inr rfl)⟩

end Rune
